import Mathlib

/-
Shallow embedding of `monitor.py` from the mlx_monitor repository.

The program discovers Mellanox InfiniBand adapters under
/sys/class/infiniband, reads their physical-layer byte counters through
the ethtool ioctl protocol, keeps a 20-entry sliding window of raw
counter values per device, and renders per-tick rate series.

The embedding models:
  * the ethtool protocol client (`get_gstringset`, `get_nic_stats`) as
    pure functions of a kernel response oracle (`EthtoolKernel`);
  * the filesystem reads of discovery (`get_ib_devices`,
    `get_up_ib_devices`) as functions of an `FS` oracle, with Python
    exceptions modelled by `Except PyError`;
  * the per-device sliding windows and the per-tick update
    (`update_stats`), the rate series and the latest-rate display of
    `generate_table` (`sparkSeries`, `latestRate`).
Python exceptions propagate by the `Except` monad's short-circuiting,
matching the absence of try/except in the modelled functions.
-/

set_option autoImplicit false

namespace MlxMonitor

/-! ### Ethtool protocol client -/

/-- Kernel-side responses to the three ioctl phases, as seen by one call
of the protocol client.  `ssetMask`/`ssetLen` are the fields unpacked
from the GSSET_INFO response (`struct.unpack "8xQI"`); `stringsBytes n`
is the buffer contents after the GSTRINGS ioctl when the request was
sized for `n` strings; `statsBytes n` likewise for GSTATS with `n`
slots.  Buffer entries are bytes (values `0..255`). -/
structure EthtoolKernel where
  ssetMask : Nat
  ssetLen : Nat
  stringsBytes : Nat → List Nat
  statsBytes : Nat → List Nat

/-- The constant ETH_GSTRING_LEN from monitor.py. -/
def ETH_GSTRING_LEN : Nat := 32

/-- The string count actually used after the GSSET_INFO phase: monitor.py
sets `sset_len = 0` when `sset_mask == 0`. -/
def effectiveLen (k : EthtoolKernel) : Nat :=
  if k.ssetMask = 0 then 0 else k.ssetLen

/-- One 32-byte slot of the GSTRINGS response buffer, decoded as in
`strings[offset:offset+ETH_GSTRING_LEN].tobytes().partition(b'\x00')[0]`:
the bytes at offset `12 + 32*i`, truncated at the first NUL.  (The
Python code additionally decodes these bytes as UTF-8; the byte list is
the name.) -/
def decodeSlot (buf : List Nat) (i : Nat) : List Nat :=
  (((buf.drop (12 + ETH_GSTRING_LEN * i)).take ETH_GSTRING_LEN).takeWhile (fun b => b ≠ 0))

/-- Function `Ethtool.get_gstringset`: the list of decoded counter names, in table
order (`for i in range(sset_len)`). -/
def get_gstringset (k : EthtoolKernel) : List (List Nat) :=
  (List.range (effectiveLen k)).map (decodeSlot (k.stringsBytes (effectiveLen k)))

/-- The value of struct.unpack for format Q: a little-endian unsigned 64-bit value from
8 bytes. -/
def u64le (bs : List Nat) : Nat :=
  bs.foldr (fun b acc => b + 256 * acc) 0

/-- Function `Ethtool.get_nic_stats`: pairs string-table name `i` with the 8-byte
value at offset `8 + 8*i` of the GSTATS response, positionally. -/
def get_nic_stats (k : EthtoolKernel) : List (List Nat × Nat) :=
  let strings := get_gstringset k
  let n_stats := strings.length
  let buf := k.statsBytes n_stats
  (List.range n_stats).map
    (fun i => (strings.getD i [], u64le ((buf.drop (8 + 8 * i)).take 8)))

/-! ### Python exceptions and the filesystem oracle -/

/-- The Python exceptions that the modelled code can raise. -/
inductive PyError where
  | fileNotFound : PyError
  | indexError : PyError
  | keyError : String → PyError
  | osError : PyError
deriving DecidableEq

/-- Filesystem oracle: `listdir p = none` models `os.listdir` raising
`FileNotFoundError`; `readFile p = none` models `open` raising
`FileNotFoundError`; `pathExists` models `os.path.exists`. -/
structure FS where
  listdir : String → Option (List String)
  pathExists : String → Bool
  readFile : String → Option String

/-- The net-binding directory of an adapter,
`/sys/class/infiniband/{device}/device/net`. -/
def netDirPath (device : String) : String :=
  "/sys/class/infiniband/" ++ device ++ "/device/net"

/-- Substring test on character lists, modelling Python's `in` operator
on strings. -/
def hasSub (needle : List Char) : List Char → Bool
  | [] => needle.isEmpty
  | c :: rest => needle.isPrefixOf (c :: rest) || hasSub needle rest

/-- The Python test of membership of the text mlx in the device name. -/
def isMlx (device : String) : Bool :=
  hasSub "mlx".toList device.toList

/-- Stable ascending insertion of a string into a sorted list. -/
def insertLe (a : String) : List String → List String
  | [] => [a]
  | b :: rest => if a ≤ b then a :: b :: rest else b :: insertLe a rest

/-- Python's `sorted` on a list of strings: stable ascending
lexicographic order, modelled by insertion sort. -/
def pySorted : List String → List String
  | [] => []
  | a :: rest => insertLe a (pySorted rest)

/-- A discovered device: adapter name (`"mlx"` key in monitor.py) and its
backing network interface (`"net"` key). -/
structure Device where
  mlx : String
  net : String
deriving DecidableEq

/-- The body of the discovery loop of `get_ib_devices`: an mlx-matching
candidate is resolved by `os.listdir(net_dir)[0]` with no guard, so a
missing net directory raises `FileNotFoundError` and an empty listing
raises `IndexError`. -/
def scanCandidate (fs : FS) (acc : List Device) (device : String) :
    Except PyError (List Device) :=
  if isMlx device then
    match fs.listdir (netDirPath device) with
    | none => Except.error PyError.fileNotFound
    | some [] => Except.error PyError.indexError
    | some (n :: _) => Except.ok (acc ++ [⟨device, n⟩])
  else Except.ok acc

/-- Function `get_ib_devices` from monitor.py.  Only the top-level
`os.listdir('/sys/class/infiniband')` is guarded by `try/except
FileNotFoundError`; any exception inside the loop propagates out. -/
def get_ib_devices (fs : FS) : Except PyError (List Device) :=
  match fs.listdir "/sys/class/infiniband" with
  | none => Except.ok []
  | some p => (pySorted p).foldlM (scanCandidate fs) []

/-- The body of the loop of `get_up_ib_devices`: re-lists the device's
net directory, takes entry 0, checks `os.path.exists` on the net device
path, then opens `operstate` (unguarded: a missing file raises) and
keeps the device iff the trimmed contents equal `"up"`. -/
def checkUp (fs : FS) (acc : List Device) (device : Device) :
    Except PyError (List Device) := do
  let netlist ← match fs.listdir (netDirPath device.mlx) with
    | none => Except.error PyError.fileNotFound
    | some l => Except.ok l
  let netdevice ← match netlist with
    | [] => Except.error PyError.indexError
    | n :: _ => Except.ok n
  if fs.pathExists (netDirPath device.mlx ++ "/" ++ netdevice) then
    match fs.readFile (netDirPath device.mlx ++ "/" ++ netdevice ++ "/operstate") with
    | none => Except.error PyError.fileNotFound
    | some s => if s.trim = "up" then Except.ok (acc ++ [device]) else Except.ok acc
  else Except.ok acc

/-- Function `get_up_ib_devices` from monitor.py. -/
def get_up_ib_devices (fs : FS) : Except PyError (List Device) := do
  let ib_devices ← get_ib_devices fs
  ib_devices.foldlM (checkUp fs) []

/-! ### Sample store and per-tick update -/

/-- A counter snapshot: the dict comprehension
`{k: v for k, v in d.get_nic_stats()}`, with names decoded to strings
and values the unsigned 64-bit counters (Python unbounded ints). -/
abbrev Snapshot := List (String × Int)

/-- The two sliding windows kept per device in the global `stats` dict. -/
structure DevStats where
  rx_bytes_phy : List Int
  tx_bytes_phy : List Int
deriving DecidableEq

/-- The global `stats` dict, keyed by the adapter name. -/
abbrev Stats := List (String × DevStats)

/-- Window seeding from the first observed value: the list of 20 copies of it. -/
def initWindow (v : Int) : List Int :=
  List.replicate 20 v

/-- One window update: `w.append(x)` followed by `w.pop(0)`. -/
def push (w : List Int) (x : Int) : List Int :=
  (w ++ [x]).tail

/-- A sequence of window updates, oldest first. -/
def applyUpdates (w : List Int) (xs : List Int) : List Int :=
  xs.foldl push w

/-- Dict lookup of a counter name: raises `KeyError` when the name is absent. -/
def dictGet (snap : Snapshot) (key : String) : Except PyError Int :=
  match snap.lookup key with
  | none => Except.error (PyError.keyError key)
  | some v => Except.ok v

/-- In-place overwrite of an existing key of the stats dict. -/
def setStats (st : Stats) (key : String) (v : DevStats) : Stats :=
  st.map (fun p => if p.1 = key then (key, v) else p)

/-- The per-device startup seeding (monitor.py lines 205-211):
`stats[mlx]["rx_bytes_phy"] = [ethtool_data["rx_bytes_phy"]] * 20` and
likewise for tx.  A missing tracked name raises `KeyError`. -/
def init_device_stats (snap : Snapshot) : Except PyError DevStats := do
  let rx ← dictGet snap "rx_bytes_phy"
  let tx ← dictGet snap "tx_bytes_phy"
  Except.ok ⟨initWindow rx, initWindow tx⟩

/-- The body of the device loop of `update_stats` from monitor.py.
`query net` models `{k: v for k, v in Ethtool(net).get_nic_stats()}`
including any OSError raised by the underlying ioctl.  No exception is
caught: any per-device failure short-circuits the whole fold, as the
uncaught Python exception aborts the whole function.  (Python would
leave a partially-mutated window behind on a `KeyError` between the rx
and tx appends, but that state is unobservable: the exception
terminates the program.) -/
def update_one (query : String → Except PyError Snapshot)
    (st : Stats) (device : Device) : Except PyError Stats := do
  let ethtool_data ← query device.net
  let ds ← match st.lookup device.mlx with
    | none => Except.error (PyError.keyError device.mlx)
    | some ds => Except.ok ds
  let rx ← dictGet ethtool_data "rx_bytes_phy"
  let tx ← dictGet ethtool_data "tx_bytes_phy"
  Except.ok (setStats st device.mlx ⟨push ds.rx_bytes_phy rx, push ds.tx_bytes_phy tx⟩)

/-- Function `update_stats` from monitor.py folds `update_one` over the discovered devices. -/
def update_stats (query : String → Except PyError Snapshot)
    (ibd : List Device) (st : Stats) : Except PyError Stats :=
  ibd.foldlM (update_one query) st

/-- The sampling loop (`while True: ... generate_table() ...`), restricted
to its stats-updating effect and cut off after `n` ticks: each tick runs
`update_stats`, and an uncaught exception terminates the loop. -/
def run_ticks (query : String → Except PyError Snapshot) (ibd : List Device) :
    Nat → Stats → Except PyError Stats
  | 0, st => Except.ok st
  | n + 1, st => do
      let st' ← update_stats query ibd st
      run_ticks query ibd n st'

/-! ### Rate series and latest rate (generate_table) -/

/-- Python `range(a, b)`. -/
def pyRange (a b : Nat) : List Nat :=
  List.range' a (b - a)

/-- The delta series handed to `sparkline` in `generate_table`:
`[(w[i] - w[i-1])//1000 for i in range(1, len(w))]`.  Python `//` is
floor division, `Int.fdiv`. -/
def sparkSeries (w : List Int) : List Int :=
  (pyRange 1 w.length).map (fun i => Int.fdiv (w.getD i 0 - w.getD (i - 1) 0) 1000)

/-- The most-recent displayed rate of `generate_table`:
`(w[-1] - w[-2]) / 1000000`, true division producing a rational value.
(For the length-20 windows of the program, `w[-1]` is `w[len-1]` and
`w[-2]` is `w[len-2]`.) -/
def latestRate (w : List Int) : ℚ :=
  ((w.getD (w.length - 1) 0 - w.getD (w.length - 2) 0 : Int) : ℚ) / 1000000

/-- The rate series as worded by the spec for claim C4: the same
comprehension but with integer-TRUNCATED division by the scale factor
(`Int.tdiv` rounds toward zero), to be compared against the source's
floor division. -/
def rateSeriesTruncSpec (w : List Int) : List Int :=
  (pyRange 1 w.length).map (fun i => Int.tdiv (w.getD i 0 - w.getD (i - 1) 0) 1000)

/-! ### Concrete instances used by witnesses and counterexamples -/

/-- A discovered device as in the spec's end-to-end scenario. -/
def devA : Device := ⟨"mlx5_0", "ib0"⟩

/-- Stats dict after seeding `devA` with counter values (1000, 2000). -/
def stA : Stats := [("mlx5_0", ⟨initWindow 1000, initWindow 2000⟩)]

/-- The second-tick snapshot of the spec's end-to-end scenario. -/
def snapB : Snapshot := [("rx_bytes_phy", 1500), ("tx_bytes_phy", 2300)]

/-- A filesystem whose registry lists one adapter whose net-binding
directory is missing. -/
def fsMissingNet : FS :=
  ⟨fun p => if p = "/sys/class/infiniband" then some ["mlx5_0"] else none,
   fun _ => false, fun _ => none⟩

/-- A filesystem whose one adapter has an empty net-binding directory. -/
def fsEmptyNet : FS :=
  ⟨fun p => if p = "/sys/class/infiniband" then some ["mlx5_0"]
    else if p = netDirPath "mlx5_0" then some [] else none,
   fun _ => false, fun _ => none⟩

/-- A filesystem whose one adapter has two entries in its net-binding
directory. -/
def fsTwoNet : FS :=
  ⟨fun p => if p = "/sys/class/infiniband" then some ["mlx5_0"]
    else if p = netDirPath "mlx5_0" then some ["ib0", "ib1"] else none,
   fun _ => false, fun _ => none⟩

/-- A filesystem whose one adapter resolves to net interface "ib0" but
whose `operstate` file is missing. -/
def fsMissingOper : FS :=
  ⟨fun p => if p = "/sys/class/infiniband" then some ["mlx5_0"]
    else if p = netDirPath "mlx5_0" then some ["ib0"] else none,
   fun p => p == netDirPath "mlx5_0" ++ "/ib0",
   fun _ => none⟩

/-- A length-20 window whose newest sample is smaller than its
predecessor (a counter reset/wraparound, which monitor.py does not
guard against). -/
def wNeg : List Int := List.replicate 19 1000 ++ [500]

/-- A kernel oracle advertising one counter named "rx" (bytes 114, 120)
with value 5. -/
def kDemo : EthtoolKernel :=
  ⟨1, 1,
   fun _ => List.replicate 12 0 ++ (114 :: 120 :: List.replicate 30 0),
   fun _ => List.replicate 8 0 ++ [5, 0, 0, 0, 0, 0, 0, 0]⟩

/-- A kernel oracle reporting a zero set-info bitmask. -/
def kZero : EthtoolKernel := ⟨0, 7, fun _ => [], fun _ => []⟩

/-! ### Helper lemmas -/

theorem push_length (w : List Int) (x : Int) : (push w x).length = w.length := by
  simp [push]

theorem push_cons (a : Int) (l : List Int) (x : Int) : push (a :: l) x = l ++ [x] := rfl

theorem applyUpdates_cons (w : List Int) (x : Int) (xs : List Int) :
    applyUpdates w (x :: xs) = applyUpdates (push w x) xs := rfl

theorem applyUpdates_length (xs : List Int) :
    ∀ w : List Int, (applyUpdates w xs).length = w.length := by
  induction xs with
  | nil => intro w; rfl
  | cons x xs ih => intro w; rw [applyUpdates_cons, ih (push w x), push_length]

/-- After `k ≤ m` updates, a window that started as `m` seed copies
followed by `ys` holds `m - k` seed copies followed by `ys` and the
pushed values. -/
theorem applyUpdates_seeded (xs : List Int) :
    ∀ (m : Nat) (v : Int) (ys : List Int), xs.length ≤ m →
      applyUpdates (List.replicate m v ++ ys) xs
        = List.replicate (m - xs.length) v ++ (ys ++ xs) := by
  induction xs with
  | nil => intro m v ys _; simp [applyUpdates]
  | cons x xs ih =>
      intro m v ys h
      cases m with
      | zero => simp at h
      | succ m =>
          rw [applyUpdates_cons]
          have h1 : push (List.replicate (m + 1) v ++ ys) x
              = List.replicate m v ++ (ys ++ [x]) := by
            rw [List.replicate_succ, List.cons_append, push_cons, List.append_assoc]
          rw [h1, ih m v (ys ++ [x]) (by simpa using h)]
          simp [List.append_assoc, Nat.succ_sub_succ]

theorem sparkSeries_length (w : List Int) : (sparkSeries w).length = w.length - 1 := by
  simp [sparkSeries, pyRange]

theorem sparkSeries_getElem (w : List Int) (i : Nat) (h : i + 1 < w.length) :
    (sparkSeries w)[i]? = some (Int.fdiv (w.getD (i + 1) 0 - w.getD i 0) 1000) := by
  have hlt : i < w.length - 1 := by omega
  rw [sparkSeries, pyRange, List.getElem?_map, List.getElem?_range' 1 1 hlt]
  have h2 : 1 + 1 * i = i + 1 := by omega
  rw [h2]
  simp

theorem len_gstringset (k : EthtoolKernel) :
    (get_gstringset k).length = effectiveLen k := by
  simp [get_gstringset]

/-! ### Claims -/

/-- C3: the window is seeded by replicating the first observed value
20 times, every update appends one value and evicts the oldest, the
length is invariantly 20 over any update sequence, and after `k < 20`
updates the first `20 - k` entries still equal the seed. -/
theorem C3_window_invariant (v : Int) (xs : List Int) :
    (applyUpdates (initWindow v) xs).length = 20 ∧
    (∀ y : Int, push (applyUpdates (initWindow v) xs) y
        = (applyUpdates (initWindow v) xs).drop 1 ++ [y]) ∧
    (xs.length < 20 →
      (applyUpdates (initWindow v) xs).take (20 - xs.length)
        = List.replicate (20 - xs.length) v) := by
  have hlen : (applyUpdates (initWindow v) xs).length = 20 := by
    rw [applyUpdates_length]; simp [initWindow]
  refine ⟨hlen, ?_, ?_⟩
  · intro y
    cases hw : applyUpdates (initWindow v) xs with
    | nil => rw [hw] at hlen; simp at hlen
    | cons a l => rw [push_cons]; simp
  · intro hk
    have hseed := applyUpdates_seeded xs 20 v [] (Nat.le_of_lt hk)
    have h0 : initWindow v = List.replicate 20 v ++ [] := by simp [initWindow]
    rw [h0, hseed, List.nil_append]
    have htake := List.take_left (List.replicate (20 - xs.length) v) xs
    rw [List.length_replicate] at htake
    exact htake

/-- C3 witness: three updates on a window seeded with 3 leave length 20
and the first 17 entries equal to the seed. -/
theorem C3_window_invariant_witness :
    (applyUpdates (initWindow 3) [5, 6, 7]).length = 20 ∧
    (applyUpdates (initWindow 3) [5, 6, 7]).take 17 = List.replicate 17 3 :=
  ⟨(C3_window_invariant 3 [5, 6, 7]).1,
   (C3_window_invariant 3 [5, 6, 7]).2.2 (by decide)⟩

/-- C4 counterexample: the claim reads the series element as
integer-TRUNCATED division, but Python `//` is floor division.  On a
window whose newest sample dropped by 500, the code yields `-1` where
truncated division yields `0`. -/
theorem C4_trunc_counterexample :
    (sparkSeries wNeg)[18]? = some (-1) ∧
    Int.tdiv (wNeg.getD 19 0 - wNeg.getD 18 0) 1000 = 0 ∧
    sparkSeries wNeg ≠ rateSeriesTruncSpec wNeg := by decide

/-- C4 (amended): the rate series has length `len(window) - 1` and its
element at position `i - 1` (produced by loop index `i` of
`range(1, len(window))`) equals the FLOOR division
`(window[i] - window[i-1]) // 1000` of the delta by the configured
scale factor. -/
theorem C4_rate_series_floor (w : List Int) (i : Nat) (h1 : 1 ≤ i) (h2 : i < w.length) :
    (sparkSeries w).length = w.length - 1 ∧
    (sparkSeries w)[i - 1]? = some (Int.fdiv (w.getD i 0 - w.getD (i - 1) 0) 1000) := by
  refine ⟨sparkSeries_length w, ?_⟩
  have h3 : (i - 1) + 1 < w.length := by omega
  have h4 := sparkSeries_getElem w (i - 1) h3
  have h5 : (i - 1) + 1 = i := by omega
  rw [h5] at h4
  exact h4

/-- C4 witness: on the window [0, 2500] the series is the single
element (2500 - 0) // 1000 = 2. -/
theorem C4_rate_series_floor_witness :
    (1 : Nat) ≤ 1 ∧
    (sparkSeries [0, 2500]).length = ([0, 2500] : List Int).length - 1 ∧
    (sparkSeries [0, 2500])[1 - 1]? =
      some (Int.fdiv (([0, 2500] : List Int).getD 1 0 - ([0, 2500] : List Int).getD (1 - 1) 0) 1000) :=
  ⟨by decide, C4_rate_series_floor [0, 2500] 1 (by decide) (by decide)⟩

/-- C9: from one and the same window, the sparkline input is the series
of adjacent deltas floor-divided by 1000, while the displayed
most-recent rate divides the newest delta by 10^6 exactly (rational
division); the two scale factors differ. -/
theorem C9_two_scale_factors (w : List Int) :
    (∀ i : Nat, i + 1 < w.length →
      (sparkSeries w)[i]? = some (Int.fdiv (w.getD (i + 1) 0 - w.getD i 0) 1000)) ∧
    latestRate w
      = ((w.getD (w.length - 1) 0 - w.getD (w.length - 2) 0 : Int) : ℚ) / 1000000 ∧
    (1000 : ℚ) ≠ 1000000 := by
  refine ⟨fun i h => sparkSeries_getElem w i h, rfl, by norm_num⟩

/-- C9 witness: both outputs evaluated on the window [1000, 3000]. -/
theorem C9_two_scale_factors_witness :
    0 + 1 < ([1000, 3000] : List Int).length ∧
    (sparkSeries [1000, 3000])[0]? =
      some (Int.fdiv (([1000, 3000] : List Int).getD (0 + 1) 0 - ([1000, 3000] : List Int).getD 0 0) 1000) ∧
    latestRate [1000, 3000]
      = ((([1000, 3000] : List Int).getD 1 0 - ([1000, 3000] : List Int).getD 0 0 : Int) : ℚ) / 1000000 :=
  ⟨by decide, (C9_two_scale_factors [1000, 3000]).1 0 (by decide),
   (C9_two_scale_factors [1000, 3000]).2.1⟩

/-- C5: the string-table slot `i` decodes to the response bytes at
offset `12 + 32*i`, truncated at the first NUL, in table order; the
stats response pairs the 8-byte unsigned value at offset `8 + 8*i`
positionally with decoded name `i`, producing exactly one pair per
string-table entry. -/
theorem C5_positional_decoding (k : EthtoolKernel) (i : Nat) (h : i < effectiveLen k) :
    (get_gstringset k)[i]? =
      some ((((k.stringsBytes (effectiveLen k)).drop (12 + 32 * i)).take 32).takeWhile
        (fun b => b ≠ 0)) ∧
    (get_nic_stats k).length = (get_gstringset k).length ∧
    (get_nic_stats k)[i]? =
      some ((get_gstringset k).getD i [],
        u64le (((k.statsBytes ((get_gstringset k).length)).drop (8 + 8 * i)).take 8)) := by
  refine ⟨?_, ?_, ?_⟩
  · rw [get_gstringset, List.getElem?_map, List.getElem?_range h]
    rfl
  · simp [get_nic_stats]
  · have h2 : i < (get_gstringset k).length := by rw [len_gstringset]; exact h
    simp only [get_nic_stats, List.getElem?_map, List.getElem?_range h2]
    rfl

/-- C5 witness: a one-counter kernel oracle, slot 0. -/
theorem C5_positional_decoding_witness :
    0 < effectiveLen kDemo ∧
    ((get_gstringset kDemo)[0]? =
      some ((((kDemo.stringsBytes (effectiveLen kDemo)).drop (12 + 32 * 0)).take 32).takeWhile
        (fun b => b ≠ 0)) ∧
    (get_nic_stats kDemo).length = (get_gstringset kDemo).length ∧
    (get_nic_stats kDemo)[0]? =
      some ((get_gstringset kDemo).getD 0 [],
        u64le (((kDemo.statsBytes ((get_gstringset kDemo).length)).drop (8 + 8 * 0)).take 8))) :=
  ⟨by decide, C5_positional_decoding kDemo 0 (by decide)⟩

/-- C6: a zero set-info bitmask makes the effective string count zero,
so the protocol client produces no counter names and no (name, value)
pairs. -/
theorem C6_mask_zero_empty (k : EthtoolKernel) (h : k.ssetMask = 0) :
    get_gstringset k = [] ∧ get_nic_stats k = [] := by
  have h1 : get_gstringset k = [] := by simp [get_gstringset, effectiveLen, h]
  refine ⟨h1, ?_⟩
  simp [get_nic_stats, h1]

/-- C6 witness: a kernel oracle with mask 0 (and a nonzero advertised
length, which is ignored). -/
theorem C6_mask_zero_empty_witness :
    kZero.ssetMask = 0 ∧ get_gstringset kZero = [] ∧ get_nic_stats kZero = [] :=
  ⟨rfl, C6_mask_zero_empty kZero rfl⟩

/-- C7: with windows seeded from counter values (1000, 2000), one tick
with values (1500, 2300) yields the most-recent rate pair
((1500-1000)/10^6, (2300-2000)/10^6) = (0.0005, 0.0003), and both
windows keep length 20 throughout. -/
theorem C7_latest_rate_scenario :
    update_stats (fun _ => Except.ok snapB) [devA] stA
      = Except.ok [("mlx5_0", ⟨push (initWindow 1000) 1500, push (initWindow 2000) 2300⟩)] ∧
    latestRate (push (initWindow 1000) 1500) = 0.0005 ∧
    latestRate (push (initWindow 2000) 2300) = 0.0003 ∧
    (push (initWindow 1000) 1500).length = 20 ∧
    (push (initWindow 2000) 2300).length = 20 := by
  refine ⟨rfl, ?_, ?_, by decide, by decide⟩
  · have h : latestRate (push (initWindow 1000) 1500) = ((500 : Int) : ℚ) / 1000000 := rfl
    rw [h]; norm_num
  · have h : latestRate (push (initWindow 2000) 2300) = ((300 : Int) : ℚ) / 1000000 := rfl
    rw [h]; norm_num

/-- C8: a missing InfiniBand registry path yields an empty device list,
not an exception. -/
theorem C8_missing_registry (fs : FS)
    (h : fs.listdir "/sys/class/infiniband" = none) :
    get_ib_devices fs = Except.ok [] := by
  simp [get_ib_devices, h]

/-- C8 witness: the fully-absent filesystem. -/
theorem C8_missing_registry_witness :
    (FS.mk (fun _ => none) (fun _ => false) (fun _ => none)).listdir
        "/sys/class/infiniband" = none ∧
    get_ib_devices ⟨fun _ => none, fun _ => false, fun _ => none⟩ = Except.ok [] :=
  ⟨rfl, C8_missing_registry _ rfl⟩

/-! ### Exception-propagation helpers -/

@[simp] theorem except_error_bind {α β : Type} (e : PyError) (k : α → Except PyError β) :
    (Except.error e >>= k : Except PyError β) = Except.error e := rfl

@[simp] theorem except_ok_bind {α β : Type} (a : α) (k : α → Except PyError β) :
    (Except.ok a >>= k : Except PyError β) = k a := rfl

theorem update_one_query_error (query : String → Except PyError Snapshot)
    (st : Stats) (d : Device) (e : PyError) (h : query d.net = Except.error e) :
    update_one query st d = Except.error e := by
  simp [update_one, h]

theorem scanCandidate_net_missing (fs : FS) (acc : List Device) (d : String)
    (hm : isMlx d = true) (hn : fs.listdir (netDirPath d) = none) :
    scanCandidate fs acc d = Except.error PyError.fileNotFound := by
  simp [scanCandidate, hm, hn]

theorem scanCandidate_net_empty (fs : FS) (acc : List Device) (d : String)
    (hm : isMlx d = true) (hn : fs.listdir (netDirPath d) = some []) :
    scanCandidate fs acc d = Except.error PyError.indexError := by
  simp [scanCandidate, hm, hn]

theorem scanCandidate_net_first (fs : FS) (acc : List Device) (d n : String)
    (more : List String) (hm : isMlx d = true)
    (hn : fs.listdir (netDirPath d) = some (n :: more)) :
    scanCandidate fs acc d = Except.ok (acc ++ [⟨d, n⟩]) := by
  simp [scanCandidate, hm, hn]

theorem checkUp_oper_missing (fs : FS) (acc : List Device) (dev : Device)
    (nd : String) (more : List String)
    (hnet : fs.listdir (netDirPath dev.mlx) = some (nd :: more))
    (hex : fs.pathExists (netDirPath dev.mlx ++ "/" ++ nd) = true)
    (hread : fs.readFile (netDirPath dev.mlx ++ "/" ++ nd ++ "/operstate") = none) :
    checkUp fs acc dev = Except.error PyError.fileNotFound := by
  simp [checkUp, hnet, hex, hread]

/-- C1 counterexample: against the claim that a counter-query failure is
isolated to the device and never propagates, a single failing ioctl
query (or a snapshot lacking `rx_bytes_phy`) makes `update_stats`
return the exception itself, and one loop tick terminates with it. -/
theorem C1_failure_counterexample :
    update_stats (fun _ => Except.error PyError.osError) [devA] stA
      = Except.error PyError.osError ∧
    run_ticks (fun _ => Except.error PyError.osError) [devA] 1 stA
      = Except.error PyError.osError ∧
    update_stats (fun _ => Except.ok [("tx_bytes_phy", 2300)]) [devA] stA
      = Except.error (PyError.keyError "rx_bytes_phy") :=
  ⟨rfl, rfl, rfl⟩

/-- C1 (amended): a failure of the first device's counter query
propagates out of `update_stats` unchanged — no device's window is
updated that tick — and every sampling-loop run of at least one tick
terminates with that exception; failures are not isolated per device. -/
theorem C1_failure_propagates (query : String → Except PyError Snapshot)
    (d : Device) (rest : List Device) (st : Stats) (e : PyError)
    (h : query d.net = Except.error e) :
    update_stats query (d :: rest) st = Except.error e ∧
    (∀ n : Nat, run_ticks query (d :: rest) (n + 1) st = Except.error e) := by
  have h1 : update_stats query (d :: rest) st = Except.error e := by
    rw [update_stats, List.foldlM_cons, update_one_query_error query st d e h]
    rfl
  exact ⟨h1, fun n => by simp [run_ticks, h1]⟩

/-- C1 witness: a two-device list whose first query fails; the update
step and a one-tick loop both surface the exception. -/
theorem C1_failure_propagates_witness :
    (fun _ : String => (Except.error PyError.osError : Except PyError Snapshot)) devA.net
      = Except.error PyError.osError ∧
    update_stats (fun _ => Except.error PyError.osError) [devA, ⟨"mlx5_1", "ib1"⟩] stA
      = Except.error PyError.osError ∧
    run_ticks (fun _ => Except.error PyError.osError) [devA, ⟨"mlx5_1", "ib1"⟩] 1 stA
      = Except.error PyError.osError :=
  ⟨rfl,
   (C1_failure_propagates (fun _ => Except.error PyError.osError) devA
     [⟨"mlx5_1", "ib1"⟩] stA PyError.osError rfl).1,
   (C1_failure_propagates (fun _ => Except.error PyError.osError) devA
     [⟨"mlx5_1", "ib1"⟩] stA PyError.osError rfl).2 0⟩

/-- C2 counterexample: a registry with one candidate whose net-binding
directory is missing makes `get_ib_devices` raise `FileNotFoundError`
instead of skipping the candidate and returning a list. -/
theorem C2_skip_counterexample :
    get_ib_devices fsMissingNet = Except.error PyError.fileNotFound ∧
    get_up_ib_devices fsMissingOper = Except.error PyError.fileNotFound :=
  ⟨rfl, rfl⟩

/-- C2 (amended): only absence of the top-level registry is handled.
For a single candidate, a missing net-binding directory makes
`get_ib_devices` raise `FileNotFoundError`, and a missing `operstate`
file makes `get_up_ib_devices` raise `FileNotFoundError`; the candidate
is not skipped and the scan aborts. -/
theorem C2_candidate_failure_aborts (fs : FS) :
    (∀ l d rest, fs.listdir "/sys/class/infiniband" = some l →
      pySorted l = d :: rest → isMlx d = true →
      fs.listdir (netDirPath d) = none →
      get_ib_devices fs = Except.error PyError.fileNotFound) ∧
    (∀ dev rest2 nd more, get_ib_devices fs = Except.ok (dev :: rest2) →
      fs.listdir (netDirPath dev.mlx) = some (nd :: more) →
      fs.pathExists (netDirPath dev.mlx ++ "/" ++ nd) = true →
      fs.readFile (netDirPath dev.mlx ++ "/" ++ nd ++ "/operstate") = none →
      get_up_ib_devices fs = Except.error PyError.fileNotFound) := by
  constructor
  · intro l d rest hroot hsort hm hn
    simp only [get_ib_devices, hroot]
    rw [hsort, List.foldlM_cons, scanCandidate_net_missing fs [] d hm hn]
    rfl
  · intro dev rest2 nd more hok hnet hex hread
    rw [get_up_ib_devices, hok, except_ok_bind, List.foldlM_cons,
      checkUp_oper_missing fs [] dev nd more hnet hex hread]
    rfl

/-- C2 witness: the amended behaviour on the two concrete filesystems
with a missing net directory and a missing operstate file. -/
theorem C2_candidate_failure_aborts_witness :
    get_ib_devices fsMissingNet = Except.error PyError.fileNotFound ∧
    get_up_ib_devices fsMissingOper = Except.error PyError.fileNotFound :=
  ⟨(C2_candidate_failure_aborts fsMissingNet).1 ["mlx5_0"] "mlx5_0" []
      rfl rfl (by decide) rfl,
   (C2_candidate_failure_aborts fsMissingOper).2 ⟨"mlx5_0", "ib0"⟩ [] "ib0" []
      rfl rfl rfl rfl⟩

/-- C10: discovery resolves the backing interface as listing entry 0
with no emptiness or uniqueness check: a first-scanned candidate whose
net directory exists but is empty makes `get_ib_devices` raise
`IndexError`, aborting the scan; with multiple entries the first listed
entry is silently selected. -/
theorem C10_first_entry_unchecked (fs : FS) (l : List String) (d : String)
    (rest : List String)
    (hroot : fs.listdir "/sys/class/infiniband" = some l)
    (hsort : pySorted l = d :: rest)
    (hm : isMlx d = true) :
    (fs.listdir (netDirPath d) = some [] →
      get_ib_devices fs = Except.error PyError.indexError) ∧
    (∀ n more, fs.listdir (netDirPath d) = some (n :: more) → rest = [] →
      get_ib_devices fs = Except.ok [⟨d, n⟩]) := by
  constructor
  · intro hn
    simp only [get_ib_devices, hroot]
    rw [hsort, List.foldlM_cons, scanCandidate_net_empty fs [] d hm hn]
    rfl
  · intro n more hn hrest
    simp only [get_ib_devices, hroot]
    rw [hsort, hrest, List.foldlM_cons, scanCandidate_net_first fs [] d n more hm hn]
    rfl

/-- C10 witness: the empty net directory raises `IndexError`; the
two-entry net directory silently selects "ib0". -/
theorem C10_first_entry_unchecked_witness :
    get_ib_devices fsEmptyNet = Except.error PyError.indexError ∧
    get_ib_devices fsTwoNet = Except.ok [⟨"mlx5_0", "ib0"⟩] :=
  ⟨(C10_first_entry_unchecked fsEmptyNet ["mlx5_0"] "mlx5_0" []
      rfl rfl (by decide)).1 rfl,
   (C10_first_entry_unchecked fsTwoNet ["mlx5_0"] "mlx5_0" []
      rfl rfl (by decide)).2 "ib0" ["ib1"] rfl rfl⟩

end MlxMonitor
